import Mathlib

/-!
Shallow embedding of the goarpa client library (Go) in Lean 4.

The library is a thin HTTP client: a constructor building a client handle
with fixed endpoint path suffixes, request-builder helpers over resty
requests, an error mapper from (response, transport error, context message)
triples to a typed APIError, and one wrapper function per remote operation.

Modelling conventions:
* a Go `error` value is `Option String`: `none` is the nil error, `some s`
  an error whose Error() text is `s`;
* a resty `*Response` is the record `RestyResponse` of the accessors the
  code reads (StatusCode, Status, the SetError slot, String, Cookies);
  resty v2's Response.IsError, "status code > 399", is `RestyResponse.IsError`;
* a resty `*Request` is the record `RestyRequest` of the fields the builder
  helpers touch; `SetHeader`/`SetQueryParam` replace an existing key as
  `http.Header.Set` and `url.Values.Set` do, `SetCookie` appends;
* `context.Context` is the record `Context` holding exactly what
  `injectTracingHeaders` reads from it: the ambient opentracing span and the
  tracer stored under `tracerContextKey` (the failed type assertion and an
  absent key both become `none`);
* network I/O is factored out: each Go operation `Op` is split into
  `Op_request` (the request value it builds) and `Op_run` (the pure
  continuation applied to the transport's (response, error) outcome).  Where
  resty decodes a response body into a result container passed by pointer,
  the decoded value is a parameter of `Op_run`;
* `encoding/json` values are the inductive `JSONValue`; marshalling and the
  repository's custom unmarshalers are modelled at this value level (a
  serialized JSON array is exactly a text of length > 1 starting with '[',
  so the byte test `len(data) > 1 && data[0] == '['` in
  StringOrArray.UnmarshalJSON is the `JSONValue.arr` case).
-/

namespace Goarpa

/-- Go strings.HasPrefix on character lists: true when the second list is an
initial segment of the first. -/
def startsWith : List Char → List Char → Bool
  | _, [] => true
  | [], _ :: _ => false
  | h :: t, p :: q => h == p && startsWith t q

/-- Go strings.Contains on character lists: true when the second list occurs
as a contiguous segment of the first. -/
def hasSubstr : List Char → List Char → Bool
  | [], pat => pat.isEmpty
  | h :: t, pat => startsWith (h :: t) pat || hasSubstr t pat

/-- Go strings.Contains on strings. -/
def strContains (s pat : String) : Bool :=
  hasSubstr s.data pat.data

/-- Go strings.TrimRight with the cutset "/": remove every trailing '/'. -/
def trimRightSlash (s : String) : String :=
  ⟨(s.data.reverse.dropWhile (fun c => c == '/')).reverse⟩

/-- Go strings.Join with a separator. -/
def goJoin (sep : String) : List String → String
  | [] => ""
  | [x] => x
  | x :: y :: t => x ++ sep ++ goJoin sep (y :: t)

/-- The pkg/errors wrap used by checkForError: errors.Wrap(err, msg).Error()
renders as the context message, ": ", then the wrapped error's text. -/
def errorsWrap (err msg : String) : String :=
  msg ++ ": " ++ err

/-- Go type APIErrType (models.go): a plain string. -/
abbrev APIErrType := String

/-- APIErrTypeUnknown (models.go): errors that are not strongly typed. -/
def APIErrTypeUnknown : APIErrType := "unknown"

/-- APIErrTypeInvalidGrant (models.go): the recognized invalid-grant kind. -/
def APIErrTypeInvalidGrant : APIErrType := "oauth: invalid grant"

/-- ParseAPIErrType (models.go): nil errors are unknown; otherwise classify
by a substring match of the error's text against "invalid_grant". -/
def ParseAPIErrType : Option String → APIErrType
  | none => APIErrTypeUnknown
  | some e =>
    if strContains e "invalid_grant" then APIErrTypeInvalidGrant
    else APIErrTypeUnknown

/-- APIError (models.go): code, message and kind of a failed call.  The Go
field named Type is spelled `type` here because Type is not a valid Lean
field name. -/
structure APIError where
  Code : Int
  Message : String
  type : APIErrType
deriving DecidableEq

/-- Modelled from the spec: the structured error body type HTTPErrorResponse
is referenced by the client code and the tests but its declaration is not
among the provided sources.  Per the spec it carries a deserialized
structured error with an emptiness test (NotEmpty) and a textual rendering
(its String method, used by the %s verb); both are kept abstract as fields. -/
structure HTTPErrorResponse where
  notEmpty : Bool
  render : String
deriving DecidableEq

/-- One http.Cookie, reduced to the fields this library ever forwards. -/
structure Cookie where
  name : String
  value : String
deriving DecidableEq

/-- A resty Response, reduced to the accessors the client code reads:
StatusCode(), Status() (the status line), Error() (the SetError slot, none
when no *HTTPErrorResponse is wired), String() (the raw body) and
Cookies(). -/
structure RestyResponse where
  statusCode : Int
  status : String
  errorSlot : Option HTTPErrorResponse
  bodyString : String
  cookies : List Cookie
deriving DecidableEq

/-- Resty v2 Response.IsError: the status code is greater than 399. -/
def RestyResponse.IsError (r : RestyResponse) : Bool :=
  r.statusCode > 399

/-- The message of the HTTP-error branch of checkForError: when the error
slot holds a non-empty structured error, the status line, ": ", then the
structured body's rendering (fmt.Sprintf("%s: %s", resp.Status(), e));
otherwise the bare status line. -/
def httpErrorMessage (r : RestyResponse) : String :=
  match r.errorSlot with
  | some e => if e.notEmpty then r.status ++ ": " ++ e.render else r.status
  | none => r.status

/-- checkForError (client.go): map a (response, transport error, context
message) triple to `none` (success) or exactly one APIError.  Transport
errors are wrapped with the context message at code 0; a nil response gives
the fixed message "empty response" (Code is Go's zero value 0); an HTTP
error status gives the status code and `httpErrorMessage`.  In the latter
two branches the Go code passes the (nil) transport error to
ParseAPIErrType, hence `ParseAPIErrType none`. -/
def checkForError (resp : Option RestyResponse) (err : Option String)
    (errMessage : String) : Option APIError :=
  match err with
  | some e =>
    some { Code := 0, Message := errorsWrap e errMessage, type := ParseAPIErrType (some e) }
  | none =>
    match resp with
    | none =>
      some { Code := 0, Message := "empty response", type := ParseAPIErrType none }
    | some r =>
      if r.IsError then
        some { Code := r.statusCode, Message := httpErrorMessage r,
               type := ParseAPIErrType none }
      else
        none

/-- An opentracing span: only its span context (opaque, a tag here) is ever
read, to be handed to Tracer.inject. -/
structure Span where
  spanCtx : Nat

/-- An opentracing tracer: Inject writes tracing headers through the
HTTPHeadersCarrier wrapped around the request's headers.  It is modelled as
a function from the span context and the current headers to the updated
headers, `none` being a failed injection (a failing injector is taken not
to have written through the carrier). -/
structure Tracer where
  inject : Nat → List (String × String) → Option (List (String × String))

/-- The ambient context.Context, reduced to what injectTracingHeaders reads:
the opentracing span (none when no span is active) and the tracer stored
under tracerContextKey (none covers both an absent key and a failed type
assertion). -/
structure Context where
  span : Option Span
  tracerValue : Option Tracer

/-- A resty Request, reduced to the fields the builder helpers touch. -/
structure RestyRequest where
  method : String := ""
  url : String := ""
  headers : List (String × String) := []
  queryParams : List (String × String) := []
  cookies : List Cookie := []
  authToken : Option String := none
  errorSlotWired : Bool := false
deriving DecidableEq

/-- Set-semantics update of an association list: replace the value of an
existing key, else append the pair (http.Header.Set / url.Values.Set). -/
def upsert : List (String × String) → String → String → List (String × String)
  | [], k, v => [(k, v)]
  | (k0, v0) :: t, k, v =>
    if k0 == k then (k, v) :: t else (k0, v0) :: upsert t k v

/-- Resty Request.SetHeader. -/
def RestyRequest.SetHeader (r : RestyRequest) (k v : String) : RestyRequest :=
  { r with headers := upsert r.headers k v }

/-- Resty Request.SetHeaders: set each pair in turn. -/
def RestyRequest.SetHeaders (r : RestyRequest)
    (hs : List (String × String)) : RestyRequest :=
  hs.foldl (fun acc kv => acc.SetHeader kv.1 kv.2) r

/-- Resty Request.SetQueryParam. -/
def RestyRequest.SetQueryParam (r : RestyRequest) (k v : String) : RestyRequest :=
  { r with queryParams := upsert r.queryParams k v }

/-- Resty Request.SetQueryParams: set each pair in turn. -/
def RestyRequest.SetQueryParams (r : RestyRequest)
    (qs : List (String × String)) : RestyRequest :=
  qs.foldl (fun acc kv => acc.SetQueryParam kv.1 kv.2) r

/-- Resty Request.SetAuthToken. -/
def RestyRequest.SetAuthToken (r : RestyRequest) (t : String) : RestyRequest :=
  { r with authToken := some t }

/-- Resty Request.SetCookie: appends to the request's cookie list. -/
def RestyRequest.SetCookie (r : RestyRequest) (c : Cookie) : RestyRequest :=
  { r with cookies := r.cookies ++ [c] }

/-- injectTracingHeaders (client.go): no span in the context leaves the
request untouched; with a span, resolve the tracer from the context or fall
back to the process-global tracer (passed explicitly here), then inject the
span context into the request's header carrier; a failed injection is
swallowed and the request is returned as it was.  No error is ever
reported (the Go function returns only the request). -/
def injectTracingHeaders (globalTracer : Tracer) (ctx : Context)
    (req : RestyRequest) : RestyRequest :=
  match ctx.span with
  | none => req
  | some s =>
    let tracer := ctx.tracerValue.getD globalTracer
    match tracer.inject s.spanCtx req.headers with
    | none => req
    | some h => { req with headers := h }

/-- GetRequest (client.go): a fresh request with the context attached and
the error-capturing slot pre-wired (SetError(&err) with err an
HTTPErrorResponse), run through injectTracingHeaders. -/
def GetRequest (globalTracer : Tracer) (ctx : Context) : RestyRequest :=
  injectTracingHeaders globalTracer ctx { errorSlotWired := true }

/-- GetRequestWithBearerAuth (client.go): GetRequest, then the auth token,
then Content-Type application/json. -/
def GetRequestWithBearerAuth (globalTracer : Tracer) (ctx : Context)
    (token : String) : RestyRequest :=
  ((GetRequest globalTracer ctx).SetAuthToken token).SetHeader
    "Content-Type" "application/json"

/-- GetRequestWithBearerAuthWithCookie (client.go): as GetRequestWithBearerAuth
but also SetCookie(cookie[0]).  The Go code indexes the first element of the
cookie slice unconditionally; on an empty slice that index faults at run
time (index out of range), modelled as `none`. -/
def GetRequestWithBearerAuthWithCookie (globalTracer : Tracer) (ctx : Context)
    (token : String) (cookie : List Cookie) : Option RestyRequest :=
  match cookie with
  | [] => none
  | c0 :: _ =>
    some ((((GetRequest globalTracer ctx).SetAuthToken token).SetCookie c0).SetHeader
      "Content-Type" "application/json")

/-- The endpoint configuration of the client handle (the Config field of
GoArpa in client.go). -/
structure GoArpaConfig where
  GetServiceTokenEndpoint : String := ""
  CreateCustomerEndpoint : String := ""
  CreateTransactionEndpoint : String := ""
  CreateServiceEndpoint : String := ""
  GetCustomerEndpoint : String := ""
deriving DecidableEq

/-- The client handle GoArpa (client.go), without the resty client pointer
(transport configuration is out of the embedded state). -/
structure GoArpa where
  basePath : String
  Config : GoArpaConfig := {}
deriving DecidableEq

/-- The urlSeparator constant (client.go). -/
def urlSeparator : String := "/"

/-- makeURL (client.go): join the path segments with the URL separator. -/
def makeURL (path : List String) : String :=
  goJoin urlSeparator path

/-- NewClient (client.go): trim trailing separators from the base path, set
the five fixed endpoint suffixes, then apply the functional options in the
order given.  An option is a mutation of the handle, `GoArpa → GoArpa`. -/
def NewClient (basePath : String) (options : List (GoArpa → GoArpa)) : GoArpa :=
  let c : GoArpa :=
    { basePath := trimRightSlash basePath,
      Config :=
        { GetServiceTokenEndpoint := makeURL ["serv", "token", "GetServiceToken"],
          CreateCustomerEndpoint := makeURL ["serv", "api", "PostBussiness"],
          CreateTransactionEndpoint := makeURL ["serv", "api", "NewTransaction"],
          CreateServiceEndpoint := makeURL ["serv", "api", "PostService"],
          GetCustomerEndpoint := makeURL ["serv", "api", "GetBusiness"] } }
  options.foldl (fun acc opt => opt acc) c

/-- The JWT token record (token.go): access token, refresh token, expiry.
Go's time.Time field is modelled by its textual value. -/
structure JWT where
  AccessToken : String
  RefreshToken : String
  ExpiresAt : String
deriving DecidableEq

/-- JSON values, the target of encoding/json.  Field order in an object is
the order of the serialized text. -/
inductive JSONValue where
  | str : String → JSONValue
  | num : Int → JSONValue
  | bool : Bool → JSONValue
  | null : JSONValue
  | arr : List JSONValue → JSONValue
  | obj : List (String × JSONValue) → JSONValue

/-- Go type StringOrArray (models.go): a string slice.  A Go slice is
either nil (the type's zero value) or a non-nil slice of elements, and
encoding/json distinguishes the two (a nil slice marshals as JSON null), so
the slice is `Option (List String)` with `none` the nil slice. -/
abbrev StringOrArray := Option (List String)

/-- StringOrArray.MarshalJSON (models.go): a one-element slice marshals as
the bare string (json.Marshal of its only element); anything else is handed
to json.Marshal of the []string, which renders the nil slice — whose length
is 0, so it falls into this branch — as JSON null and any other slice as a
JSON array of strings. -/
def StringOrArrayMarshalJSON : StringOrArray → JSONValue
  | none => JSONValue.null
  | some l =>
    if l.length = 1 then JSONValue.str (l.headD "")
    else JSONValue.arr (l.map JSONValue.str)

/-- Decoding a JSON array into a Go []string: every element must be a JSON
string (encoding/json fails on the first mismatched element). -/
def decodeStringSlice : List JSONValue → Option (List String)
  | [] => some []
  | JSONValue.str s :: rest => (decodeStringSlice rest).map (fun l => s :: l)
  | _ :: _ => none

/-- StringOrArray.UnmarshalJSON (models.go): a serialized JSON array (a text
of length > 1 starting with '[') is decoded as []string; any other text is
decoded as a single string and wrapped in a one-element slice.  A JSON null
into a Go string is a no-op leaving the zero value "", hence null decodes
to the one-element slice [""].  The outer Option is the error channel; the
decoder never produces the nil slice. -/
def StringOrArrayUnmarshalJSON (data : JSONValue) : Option StringOrArray :=
  match data with
  | JSONValue.arr items => (decodeStringSlice items).map (fun l => some l)
  | JSONValue.str s => some (some [s])
  | JSONValue.null => some (some [""])
  | _ => none

/-- CreateCustomerResponse (models.go): note the Go struct maps its
BusinessCode and BusinessID fields to the misspelled JSON keys BussinesCode
and BussinessID. -/
structure CreateCustomerResponse where
  BusinessCode : String
  BusinessID : String
  Existed : Bool
deriving DecidableEq

/-- The zero value of CreateCustomerResponse (var response CreateCustomerResponse). -/
def zeroCreateCustomerResponse : CreateCustomerResponse :=
  { BusinessCode := "", BusinessID := "", Existed := false }

/-- Field lookup in a decoded JSON object: encoding/json lets a later
duplicate key overwrite an earlier one, so the last binding wins. -/
def lookupField (fields : List (String × JSONValue)) (k : String) : Option JSONValue :=
  ((fields.filter (fun kv => kv.1 == k)).getLast?).map (fun kv => kv.2)

/-- Decode one string field of a JSON object as encoding/json does: a
missing key leaves the zero value "", a JSON string is taken as is, null is
a no-op, any other value is a type error. -/
def decodeStringField (fields : List (String × JSONValue)) (k : String) : Option String :=
  match lookupField fields k with
  | none => some ""
  | some (JSONValue.str s) => some s
  | some JSONValue.null => some ""
  | some _ => none

/-- Decode one bool field of a JSON object as encoding/json does. -/
def decodeBoolField (fields : List (String × JSONValue)) (k : String) : Option Bool :=
  match lookupField fields k with
  | none => some false
  | some (JSONValue.bool b) => some b
  | some JSONValue.null => some false
  | some _ => none

/-- encoding/json unmarshalling of a body into CreateCustomerResponse, per
the struct's JSON tags (BussinesCode, BussinessID, Existed). -/
def decodeCreateCustomerResponse (v : JSONValue) : Option CreateCustomerResponse :=
  match v with
  | JSONValue.obj fields =>
    match decodeStringField fields "BussinesCode",
          decodeStringField fields "BussinessID",
          decodeBoolField fields "Existed" with
    | some bc, some bid, some ex =>
      some { BusinessCode := bc, BusinessID := bid, Existed := ex }
    | _, _, _ => none
  | _ => none

/-- The lookup-result records carry business field schemas the spec scopes
out; each is modelled as an opaque carrier of its decoded JSON content. -/
structure GetCustomerResponse where
  content : JSONValue

/-- CreateTransactionResponse, modelled as an opaque carrier (see
GetCustomerResponse). -/
structure CreateTransactionResponse where
  content : JSONValue

/-- CreateServiceResponse, modelled as an opaque carrier (see
GetCustomerResponse). -/
structure CreateServiceResponse where
  content : JSONValue

/-- GetServiceResponse of the service lookup, modelled as an opaque carrier
(see GetCustomerResponse). -/
structure GetServiceResponse where
  content : JSONValue

/-- The zero value of the opaque carriers: Go's zero interface content. -/
def zeroContent : JSONValue := JSONValue.null

/-- AdminAuthenticate's request (client.go, earlier revision of the client
file): a base request with the username and password set as headers, posted
to basePath + "/" + the service-token endpoint. -/
def AdminAuthenticate_request (g : GoArpa) (globalTracer : Tracer) (ctx : Context)
    (username password : String) : RestyRequest :=
  let req := GetRequest globalTracer ctx
  let req := req.SetHeaders [("username", username), ("password", password)]
  { req with method := "POST",
             url := g.basePath ++ "/" ++ g.Config.GetServiceTokenEndpoint }

/-- AdminAuthenticate's continuation on the transport outcome: SetResult is
given &token, a pointer, so the value resty decoded from the body (the
`decodedToken` parameter) is what a successful call returns. -/
def AdminAuthenticate_run (resp : Option RestyResponse) (err : Option String)
    (decodedToken : JWT) : Option JWT × Option APIError :=
  match checkForError resp err "could not get token" with
  | some e => (none, some e)
  | none => (some decodedToken, none)

/-- GetAdminToken's request (client.go): a base request with the username
and password set as query parameters, issued as a GET to basePath + "/" +
the service-token endpoint + "?". -/
def GetAdminToken_request (g : GoArpa) (globalTracer : Tracer) (ctx : Context)
    (username password : String) : RestyRequest :=
  let req := GetRequest globalTracer ctx
  let req := req.SetQueryParams [("username", username), ("password", password)]
  { req with method := "GET",
             url := g.basePath ++ "/" ++ g.Config.GetServiceTokenEndpoint ++ "?" }

/-- GetAdminToken's continuation on the transport outcome: on success the
raw body text (resp.String()) and the session cookies (resp.Cookies()) are
returned.  The nil-response success case is unreachable (checkForError
rejects a nil response) and is mapped to (none, none). -/
def GetAdminToken_run (resp : Option RestyResponse) (err : Option String) :
    Option (String × List Cookie) × Option APIError :=
  match checkForError resp err "could not get token" with
  | some e => (none, some e)
  | none =>
    match resp with
    | some r => (some (r.bodyString, r.cookies), none)
    | none => (none, none)

/-- CreateCustomer's continuation on the transport outcome (client.go).  In
the source, SetResult(response) passes the local response struct BY VALUE:
resty's SetResult stores getPointer(response), and getPointer calls
reflect.New for a non-pointer argument, so the JSON body is unmarshalled
into a fresh copy held only by the resty response, while the local
`response` keeps its zero value; the function returns &response.  A
successful call therefore returns the zero CreateCustomerResponse, never
the decoded body. -/
def CreateCustomer_run (resp : Option RestyResponse) (err : Option String) :
    Option CreateCustomerResponse × Option APIError :=
  let response := zeroCreateCustomerResponse
  match checkForError resp err "could not create customer" with
  | some e => (none, some e)
  | none => (some response, none)

/-- The value resty's result slot holds after CreateCustomer's round trip:
the response body decoded into CreateCustomerResponse.  The wrapper never
reads this slot back (see CreateCustomer_run). -/
def restyDecodedCreateCustomer (body : JSONValue) : Option CreateCustomerResponse :=
  decodeCreateCustomerResponse body

/-- CreateTransaction's continuation on the transport outcome: the same
SetResult-by-value shape as CreateCustomer_run, so a successful call
returns the zero-valued local. -/
def CreateTransaction_run (resp : Option RestyResponse) (err : Option String) :
    Option CreateTransactionResponse × Option APIError :=
  let response : CreateTransactionResponse := { content := zeroContent }
  match checkForError resp err "could not create transaction" with
  | some e => (none, some e)
  | none => (some response, none)

/-- CreateService's continuation on the transport outcome: the same
SetResult-by-value shape as CreateCustomer_run. -/
def CreateService_run (resp : Option RestyResponse) (err : Option String) :
    Option CreateServiceResponse × Option APIError :=
  let response : CreateServiceResponse := { content := zeroContent }
  match checkForError resp err "could not create service" with
  | some e => (none, some e)
  | none => (some response, none)

/-- GetCustomerByMobile's continuation on the transport outcome: SetResult
is given the result pointer, so a successful call returns the decoded
value (the `decoded` parameter). -/
def GetCustomerByMobile_run (resp : Option RestyResponse) (err : Option String)
    (decoded : GetCustomerResponse) : Option GetCustomerResponse × Option APIError :=
  match checkForError resp err "could not get customer info" with
  | some e => (none, some e)
  | none => (some decoded, none)

/-- GetCustomerByBusinessCode's continuation on the transport outcome: same
shape as GetCustomerByMobile_run. -/
def GetCustomerByBusinessCode_run (resp : Option RestyResponse) (err : Option String)
    (decoded : GetCustomerResponse) : Option GetCustomerResponse × Option APIError :=
  match checkForError resp err "could not get customer info" with
  | some e => (none, some e)
  | none => (some decoded, none)

/-- Modelled from the spec: GetServiceByItemCode is exercised by the tests
but its body is not among the provided sources.  Per the spec's operation
table it follows the fixed template of the other lookups, with the context
string "could not get service info" the tests assert. -/
def GetServiceByItemCode_run (resp : Option RestyResponse) (err : Option String)
    (decoded : GetServiceResponse) : Option GetServiceResponse × Option APIError :=
  match checkForError resp err "could not get service info" with
  | some e => (none, some e)
  | none => (some decoded, none)

/-- Test fixture: an HTTP 500 response whose wired error slot deserialized
a non-empty structured error rendering as "unknown_error". -/
def c1Response : RestyResponse :=
  { statusCode := 500,
    status := "500 Internal Server Error",
    errorSlot := some { notEmpty := true, render := "unknown_error" },
    bodyString := "",
    cookies := [] }

/-- Test fixture: the mock create-customer response body of the spec's
round-trip scenario, already parsed as a JSON value. -/
def c2MockBody : JSONValue :=
  JSONValue.obj
    [("BussinesCode", JSONValue.str "127013"),
     ("BussinessID", JSONValue.str "42"),
     ("Existed", JSONValue.bool false)]

/-- Test fixture: the mock server's successful response carrying
`c2MockBody` (rendered) as its body. -/
def c2OkResponse : RestyResponse :=
  { statusCode := 200,
    status := "200 OK",
    errorSlot := some { notEmpty := false, render := "" },
    bodyString := "",
    cookies := [] }

/-! ## Helper lemmas -/

/-- startsWith is prefix order: startsWith l p holds exactly when l extends p. -/
theorem startsWith_iff : ∀ (p l : List Char), startsWith l p = true ↔ ∃ t, l = p ++ t
  | [], l => by
    simp [startsWith]
  | p :: q, [] => by
    simp [startsWith]
  | p :: q, h :: t => by
    simp only [startsWith, Bool.and_eq_true, beq_iff_eq, startsWith_iff q t,
      List.cons_append]
    constructor
    · rintro ⟨rfl, u, rfl⟩
      exact ⟨u, rfl⟩
    · rintro ⟨u, hu⟩
      injection hu with h1 h2
      exact ⟨h1, u, h2⟩

/-- hasSubstr is contiguous-segment occurrence. -/
theorem hasSubstr_iff : ∀ (l p : List Char),
    hasSubstr l p = true ↔ ∃ pre post, l = pre ++ (p ++ post)
  | [], p => by
    simp only [hasSubstr, List.isEmpty_iff]
    constructor
    · rintro rfl
      exact ⟨[], [], rfl⟩
    · rintro ⟨pre, post, h⟩
      rcases List.append_eq_nil.mp h.symm with ⟨rfl, h2⟩
      rcases List.append_eq_nil.mp h2 with ⟨rfl, rfl⟩
      rfl
  | h :: t, p => by
    simp only [hasSubstr, Bool.or_eq_true, startsWith_iff, hasSubstr_iff t p]
    constructor
    · rintro (⟨u, hu⟩ | ⟨pre, post, rfl⟩)
      · exact ⟨[], u, by simpa using hu⟩
      · exact ⟨h :: pre, post, rfl⟩
    · rintro ⟨pre, post, hpre⟩
      cases pre with
      | nil => exact Or.inl ⟨post, by simpa using hpre⟩
      | cons a pre =>
        injection hpre with h1 h2
        exact Or.inr ⟨pre, post, h2⟩

/-- strContains is substring occurrence on the underlying character lists. -/
theorem strContains_iff (s pat : String) :
    strContains s pat = true ↔ ∃ pre post, s.data = pre ++ (pat.data ++ post) :=
  hasSubstr_iff s.data pat.data

/-- A string contains each of its prefixes. -/
theorem strContains_append_left (ctx rest : String) :
    strContains (ctx ++ rest) ctx = true :=
  (strContains_iff _ _).2 ⟨[], rest.data, by simp [String.data_append]⟩

/-- The wrapped transport-error message contains the context string. -/
theorem strContains_errorsWrap (e msg : String) :
    strContains (errorsWrap e msg) msg = true := by
  have h : errorsWrap e msg = msg ++ (": " ++ e) := by
    simp [errorsWrap, String.append_assoc]
  rw [h]
  exact strContains_append_left msg (": " ++ e)

/-- The pair just set is in the updated association list. -/
theorem mem_upsert_self (l : List (String × String)) (k v : String) :
    (k, v) ∈ upsert l k v := by
  induction l with
  | nil => simp [upsert]
  | cons kv t ih =>
    obtain ⟨k0, v0⟩ := kv
    by_cases h : (k0 == k) = true
    · simp [upsert, h]
    · simp only [upsert, h, if_false]
      exact List.mem_cons_of_mem _ ih

/-- Setting a different key preserves membership of a pair. -/
theorem mem_upsert_of_ne (l : List (String × String)) (k v k' v' : String)
    (hne : k ≠ k') (hm : (k, v) ∈ l) : (k, v) ∈ upsert l k' v' := by
  induction l with
  | nil => cases hm
  | cons kv t ih =>
    obtain ⟨k0, v0⟩ := kv
    rcases List.mem_cons.mp hm with heq | hmt
    · injection heq with h1 h2
      subst h1
      subst h2
      have hb : (k == k') = false := beq_eq_false_iff_ne.mpr hne
      simp [upsert, hb]
    · by_cases hb : (k0 == k') = true
      · simp only [upsert, hb, if_true]
        exact List.mem_cons_of_mem _ hmt
      · simp only [upsert, hb, if_false]
        exact List.mem_cons_of_mem _ (ih hmt)

/-- Tracing-header injection can only rewrite the headers field; every other
field of the request is untouched. -/
theorem injectTracingHeaders_fields (gt : Tracer) (ctx : Context) (r : RestyRequest) :
    ∃ hs, injectTracingHeaders gt ctx r = { r with headers := hs } := by
  rcases hspan : ctx.span with _ | s
  · exact ⟨r.headers, by simp [injectTracingHeaders, hspan]⟩
  · rcases hinj : (ctx.tracerValue.getD gt).inject s.spanCtx r.headers with _ | h
    · exact ⟨r.headers, by simp [injectTracingHeaders, hspan, hinj]⟩
    · exact ⟨h, by simp [injectTracingHeaders, hspan, hinj]⟩

/-- The base request carries no cookies. -/
theorem GetRequest_cookies (gt : Tracer) (ctx : Context) :
    (GetRequest gt ctx).cookies = [] := by
  obtain ⟨hs, h⟩ := injectTracingHeaders_fields gt ctx { errorSlotWired := true }
  rw [GetRequest, h]

/-- The base request carries no auth token. -/
theorem GetRequest_authToken (gt : Tracer) (ctx : Context) :
    (GetRequest gt ctx).authToken = none := by
  obtain ⟨hs, h⟩ := injectTracingHeaders_fields gt ctx { errorSlotWired := true }
  rw [GetRequest, h]

/-- The head of what dropWhile leaves does not satisfy the predicate. -/
theorem head_dropWhile_false (p : Char → Bool) (l : List Char) (c : Char)
    (h : (l.dropWhile p).head? = some c) : p c = false := by
  induction l with
  | nil => simp [List.dropWhile] at h
  | cons a t ih =>
    by_cases hp : p a = true
    · rw [List.dropWhile_cons_of_pos hp] at h
      exact ih h
    · rw [List.dropWhile_cons_of_neg hp] at h
      injection h with h1
      subst h1
      exact Bool.not_eq_true _ |>.mp hp

/-- trimRightSlash only removes a run of trailing separators, and its result
does not end in one. -/
theorem trimRightSlash_spec (s : String) :
    (∃ k, s.data = (trimRightSlash s).data ++ List.replicate k '/') ∧
    (∀ c, (trimRightSlash s).data.getLast? = some c → c ≠ '/') := by
  constructor
  · refine ⟨(s.data.reverse.takeWhile (fun c => c == '/')).length, ?_⟩
    have hsplit := List.takeWhile_append_dropWhile (fun c => c == '/') s.data.reverse
    have hrep : s.data.reverse.takeWhile (fun c => c == '/') =
        List.replicate (s.data.reverse.takeWhile (fun c => c == '/')).length '/' := by
      refine List.eq_replicate_length.mpr ?_
      intro b hb
      have := List.mem_takeWhile_imp hb
      exact beq_iff_eq.mp this
    calc s.data = s.data.reverse.reverse := (List.reverse_reverse _).symm
      _ = (s.data.reverse.takeWhile (fun c => c == '/') ++
            s.data.reverse.dropWhile (fun c => c == '/')).reverse := by rw [hsplit]
      _ = (s.data.reverse.dropWhile (fun c => c == '/')).reverse ++
            (s.data.reverse.takeWhile (fun c => c == '/')).reverse := by
            rw [List.reverse_append]
      _ = (trimRightSlash s).data ++
            List.replicate (s.data.reverse.takeWhile (fun c => c == '/')).length '/' := by
            have h2 : (s.data.reverse.takeWhile (fun c => c == '/')).reverse =
                List.replicate (s.data.reverse.takeWhile (fun c => c == '/')).length '/' := by
              conv_lhs => rw [hrep]
              rw [List.reverse_replicate]
            rw [h2]
            rfl
  · intro c hc
    have hh : (s.data.reverse.dropWhile (fun c => c == '/')).head? = some c := by
      have : (trimRightSlash s).data.getLast? =
          (s.data.reverse.dropWhile (fun c => c == '/')).head? := by
        rw [trimRightSlash]
        exact List.getLast?_reverse _
      rw [this] at hc
      exact hc
    have := head_dropWhile_false _ _ _ hh
    intro hceq
    rw [hceq] at this
    simp at this

/-- Decoding undoes mapping strings into JSON string nodes. -/
theorem decodeStringSlice_map_str (l : List String) :
    decodeStringSlice (l.map JSONValue.str) = some l := by
  induction l with
  | nil => rfl
  | cons x t ih => simp [decodeStringSlice, ih]

/-! ## Claim theorems -/

/-- C3: checkForError is a (total, deterministic) function of its
(response, transport-error, context-message) triple; it returns none exactly
when the transport error is absent, the response is present and the response
does not indicate an HTTP error status; in every other case it returns the
APIError of exactly the matching one of the three failure branches:
transport failure (wrapped message, code 0), empty response (fixed message
"empty response", code 0), HTTP error status. -/
theorem claim_C3_error_mapper_total (resp : Option RestyResponse)
    (err : Option String) (msg : String) :
    (checkForError resp err msg = none ↔
      err = none ∧ ∃ r, resp = some r ∧ r.IsError = false) ∧
    (∀ e, err = some e →
      checkForError resp err msg =
        some { Code := 0, Message := errorsWrap e msg,
               type := ParseAPIErrType (some e) }) ∧
    (err = none → resp = none →
      checkForError resp err msg =
        some { Code := 0, Message := "empty response",
               type := ParseAPIErrType none }) ∧
    (∀ r, err = none → resp = some r → r.IsError = true →
      checkForError resp err msg =
        some { Code := r.statusCode, Message := httpErrorMessage r,
               type := ParseAPIErrType none }) := by
  cases err with
  | some e => simp [checkForError]
  | none =>
    cases resp with
    | none => simp [checkForError]
    | some r =>
      by_cases h : r.IsError = true
      · simp [checkForError, h]
      · have h' : r.IsError = false := Bool.not_eq_true _ |>.mp h
        simp [checkForError, h']

/-- C1: on an HTTP error status with no transport error, checkForError
returns an APIError whose Code is the HTTP status code, whose Message is
the status line joined with the structured error body's rendering when that
body deserialized into a non-empty structured error and the bare status
line otherwise, and whose kind comes from the same error-text inspection
used for transport failures (ParseAPIErrType, applied to the absent
transport error). -/
theorem claim_C1_http_error_mapping (r : RestyResponse) (msg : String)
    (h : r.IsError = true) :
    checkForError (some r) none msg =
      some { Code := r.statusCode, Message := httpErrorMessage r,
             type := ParseAPIErrType none } ∧
    (∀ e, r.errorSlot = some e → e.notEmpty = true →
      httpErrorMessage r = r.status ++ ": " ++ e.render) ∧
    (r.errorSlot = none → httpErrorMessage r = r.status) ∧
    (∀ e, r.errorSlot = some e → e.notEmpty = false →
      httpErrorMessage r = r.status) := by
  refine ⟨by simp [checkForError, h], ?_, ?_, ?_⟩
  · intro e he hne
    simp [httpErrorMessage, he, hne]
  · intro he
    simp [httpErrorMessage, he]
  · intro e he hne
    simp [httpErrorMessage, he, hne]

/-- Witness for C1: a concrete 500 response with a non-empty structured
error body rendering "unknown_error". -/
theorem claim_C1_http_error_mapping_witness :
    checkForError (some c1Response) none "could not get token" =
      some { Code := 500,
             Message := "500 Internal Server Error: unknown_error",
             type := ParseAPIErrType none } := by
  have h := (claim_C1_http_error_mapping c1Response "could not get token"
    (by decide)).1
  simpa [c1Response, httpErrorMessage] using h

/-- C6: the error-kind classification is a substring match on the error
text: it yields the invalid-grant kind exactly when the text contains
"invalid_grant" as a contiguous substring, and the unknown kind in every
other case, the nil error included. -/
theorem claim_C6_substring_classification (e : Option String) :
    (ParseAPIErrType e = APIErrTypeInvalidGrant ↔
      ∃ s, e = some s ∧
        ∃ pre post, s.data = pre ++ ("invalid_grant".data ++ post)) ∧
    (ParseAPIErrType e = APIErrTypeInvalidGrant ∨
      ParseAPIErrType e = APIErrTypeUnknown) ∧
    ParseAPIErrType none = APIErrTypeUnknown := by
  have hne : APIErrTypeUnknown ≠ APIErrTypeInvalidGrant := by decide
  refine ⟨?_, ?_, rfl⟩
  · cases e with
    | none =>
      simp only [ParseAPIErrType]
      constructor
      · intro h
        exact absurd h hne
      · rintro ⟨s, hs, -⟩
        cases hs
    | some s =>
      by_cases h : strContains s "invalid_grant" = true
      · simp only [ParseAPIErrType, h, if_true]
        constructor
        · intro _
          exact ⟨s, rfl, (strContains_iff s "invalid_grant").1 h⟩
        · intro _
          trivial
      · simp only [ParseAPIErrType, h, if_false]
        constructor
        · intro habs
          exact absurd habs hne
        · rintro ⟨s', hs', hsub⟩
          injection hs' with hss
          subst hss
          exact absurd ((strContains_iff s "invalid_grant").2 hsub) h
  · cases e with
    | none => exact Or.inr rfl
    | some s =>
      by_cases h : strContains s "invalid_grant" = true
      · exact Or.inl (by simp [ParseAPIErrType, h])
      · exact Or.inr (by simp [ParseAPIErrType, h])

/-- C4: for every operation, a non-nil transport error makes the operation
return a nil result together with an APIError whose Code is 0 and whose
Message wraps the transport error with the operation's fixed context
string; that message contains the context string as a substring. -/
theorem claim_C4_transport_error_wrapping (e : String) (resp : Option RestyResponse)
    (decodedToken : JWT) (decodedCust : GetCustomerResponse)
    (decodedServ : GetServiceResponse) :
    GetAdminToken_run resp (some e) =
      (none, some { Code := 0, Message := errorsWrap e "could not get token",
                    type := ParseAPIErrType (some e) }) ∧
    AdminAuthenticate_run resp (some e) decodedToken =
      (none, some { Code := 0, Message := errorsWrap e "could not get token",
                    type := ParseAPIErrType (some e) }) ∧
    strContains (errorsWrap e "could not get token") "could not get token" = true ∧
    CreateCustomer_run resp (some e) =
      (none, some { Code := 0, Message := errorsWrap e "could not create customer",
                    type := ParseAPIErrType (some e) }) ∧
    strContains (errorsWrap e "could not create customer")
      "could not create customer" = true ∧
    CreateTransaction_run resp (some e) =
      (none, some { Code := 0, Message := errorsWrap e "could not create transaction",
                    type := ParseAPIErrType (some e) }) ∧
    strContains (errorsWrap e "could not create transaction")
      "could not create transaction" = true ∧
    CreateService_run resp (some e) =
      (none, some { Code := 0, Message := errorsWrap e "could not create service",
                    type := ParseAPIErrType (some e) }) ∧
    strContains (errorsWrap e "could not create service")
      "could not create service" = true ∧
    GetCustomerByMobile_run resp (some e) decodedCust =
      (none, some { Code := 0, Message := errorsWrap e "could not get customer info",
                    type := ParseAPIErrType (some e) }) ∧
    GetCustomerByBusinessCode_run resp (some e) decodedCust =
      (none, some { Code := 0, Message := errorsWrap e "could not get customer info",
                    type := ParseAPIErrType (some e) }) ∧
    strContains (errorsWrap e "could not get customer info")
      "could not get customer info" = true ∧
    GetServiceByItemCode_run resp (some e) decodedServ =
      (none, some { Code := 0, Message := errorsWrap e "could not get service info",
                    type := ParseAPIErrType (some e) }) ∧
    strContains (errorsWrap e "could not get service info")
      "could not get service info" = true := by
  simp [GetAdminToken_run, AdminAuthenticate_run, CreateCustomer_run,
    CreateTransaction_run, CreateService_run, GetCustomerByMobile_run,
    GetCustomerByBusinessCode_run, GetServiceByItemCode_run, checkForError,
    strContains_errorsWrap]

/-- C2 (code bug): against the spec's mock round-trip scenario, the JSON
body does decode to the expected CreateCustomerResponse, but CreateCustomer
returns the zero-valued local struct: SetResult(response) receives the
struct by value, so resty unmarshals into a fresh copy and the returned
&response was never written.  The returned value is the zero struct, not
the decoded one. -/
theorem claim_C2_create_customer_round_trip :
    restyDecodedCreateCustomer c2MockBody =
      some { BusinessCode := "127013", BusinessID := "42", Existed := false } ∧
    CreateCustomer_run (some c2OkResponse) none =
      (some zeroCreateCustomerResponse, none) ∧
    zeroCreateCustomerResponse =
      { BusinessCode := "", BusinessID := "", Existed := false } ∧
    decide (zeroCreateCustomerResponse =
      { BusinessCode := "127013", BusinessID := "42", Existed := false }) = false := by
  refine ⟨by decide, by decide, by decide, by decide⟩

/-- C5: the legacy authenticate issues a POST carrying the username and
password as request headers and on success returns the structured decoded
token, while the token+cookie variant issues a GET carrying them as query
parameters and on success returns the raw body string with the response's
cookies. -/
theorem claim_C5_authenticate_variants (g : GoArpa) (gt : Tracer) (ctx : Context)
    (u p : String) (r : RestyResponse) (tok : JWT) :
    (AdminAuthenticate_request g gt ctx u p).method = "POST" ∧
    ("username", u) ∈ (AdminAuthenticate_request g gt ctx u p).headers ∧
    ("password", p) ∈ (AdminAuthenticate_request g gt ctx u p).headers ∧
    (r.IsError = false →
      AdminAuthenticate_run (some r) none tok = (some tok, none)) ∧
    (GetAdminToken_request g gt ctx u p).method = "GET" ∧
    ("username", u) ∈ (GetAdminToken_request g gt ctx u p).queryParams ∧
    ("password", p) ∈ (GetAdminToken_request g gt ctx u p).queryParams ∧
    (r.IsError = false →
      GetAdminToken_run (some r) none = (some (r.bodyString, r.cookies), none)) := by
  refine ⟨rfl, ?_, ?_, ?_, rfl, ?_, ?_, ?_⟩
  · simp only [AdminAuthenticate_request, RestyRequest.SetHeaders, List.foldl,
      RestyRequest.SetHeader]
    exact mem_upsert_of_ne _ _ _ _ _ (by decide) (mem_upsert_self _ _ _)
  · simp only [AdminAuthenticate_request, RestyRequest.SetHeaders, List.foldl,
      RestyRequest.SetHeader]
    exact mem_upsert_self _ _ _
  · intro h
    simp [AdminAuthenticate_run, checkForError, h]
  · simp only [GetAdminToken_request, RestyRequest.SetQueryParams, List.foldl,
      RestyRequest.SetQueryParam]
    exact mem_upsert_of_ne _ _ _ _ _ (by decide) (mem_upsert_self _ _ _)
  · simp only [GetAdminToken_request, RestyRequest.SetQueryParams, List.foldl,
      RestyRequest.SetQueryParam]
    exact mem_upsert_self _ _ _
  · intro h
    simp [GetAdminToken_run, checkForError, h]

/-- C7: NewClient trims trailing separators from the base path, fills the
five fixed endpoint suffixes (each the '/'-join of its segments) before the
options run, then applies the options in the order given. -/
theorem claim_C7_new_client (bp : String) (opts : List (GoArpa → GoArpa)) :
    NewClient bp opts = opts.foldl (fun c o => o c) (NewClient bp []) ∧
    (NewClient bp []).Config.GetServiceTokenEndpoint =
      makeURL ["serv", "token", "GetServiceToken"] ∧
    (NewClient bp []).Config.CreateCustomerEndpoint =
      makeURL ["serv", "api", "PostBussiness"] ∧
    (NewClient bp []).Config.CreateTransactionEndpoint =
      makeURL ["serv", "api", "NewTransaction"] ∧
    (NewClient bp []).Config.CreateServiceEndpoint =
      makeURL ["serv", "api", "PostService"] ∧
    (NewClient bp []).Config.GetCustomerEndpoint =
      makeURL ["serv", "api", "GetBusiness"] ∧
    makeURL ["serv", "token", "GetServiceToken"] = "serv/token/GetServiceToken" ∧
    makeURL ["serv", "api", "PostBussiness"] = "serv/api/PostBussiness" ∧
    makeURL ["serv", "api", "NewTransaction"] = "serv/api/NewTransaction" ∧
    makeURL ["serv", "api", "PostService"] = "serv/api/PostService" ∧
    makeURL ["serv", "api", "GetBusiness"] = "serv/api/GetBusiness" ∧
    (∃ k, bp.data = (NewClient bp []).basePath.data ++ List.replicate k '/') ∧
    (∀ c, (NewClient bp []).basePath.data.getLast? = some c → c ≠ '/') := by
  refine ⟨rfl, rfl, rfl, rfl, rfl, rfl, by decide, by decide, by decide, by decide,
    by decide, ?_, ?_⟩
  · exact (trimRightSlash_spec bp).1
  · exact (trimRightSlash_spec bp).2

/-- C8: a cookie-bearing request is built from a non-empty cookie collection
by attaching exactly its first cookie (and the bearer token); building from
an empty collection is the faulting unconditional index, modelled as none. -/
theorem claim_C8_first_cookie (gt : Tracer) (ctx : Context) (t : String)
    (c : Cookie) (rest : List Cookie) :
    (∃ req, GetRequestWithBearerAuthWithCookie gt ctx t (c :: rest) = some req ∧
      req.cookies = [c] ∧ req.authToken = some t) ∧
    GetRequestWithBearerAuthWithCookie gt ctx t [] = none := by
  refine ⟨⟨_, rfl, ?_, ?_⟩, rfl⟩
  · simp [RestyRequest.SetHeader, RestyRequest.SetCookie,
      RestyRequest.SetAuthToken, GetRequest_cookies]
  · simp [RestyRequest.SetHeader, RestyRequest.SetCookie, RestyRequest.SetAuthToken]

/-- C9: with no active span in the ambient context the injection step
returns the request unchanged (no header added or altered, and the function
reports no error by construction); with a span whose injection fails, the
request is likewise returned unchanged, the failure swallowed. -/
theorem claim_C9_tracing_optional (gt : Tracer) (ctx : Context) (req : RestyRequest) :
    (ctx.span = none → injectTracingHeaders gt ctx req = req) ∧
    (∀ s, ctx.span = some s →
      (ctx.tracerValue.getD gt).inject s.spanCtx req.headers = none →
      injectTracingHeaders gt ctx req = req) := by
  constructor
  · intro h
    simp [injectTracingHeaders, h]
  · intro s hs hinj
    simp [injectTracingHeaders, hs, hinj]

/-- C10 counterexample: the round trip fails at the nil slice, the type's
zero value.  Its length is not 1, so MarshalJSON hands the nil []string to
json.Marshal, which emits JSON null — not a JSON array — and UnmarshalJSON
reads null back as the one-element slice containing the empty string, not
the nil slice it started from. -/
theorem claim_C10_nil_slice_counterexample :
    StringOrArrayMarshalJSON none = JSONValue.null ∧
    StringOrArrayUnmarshalJSON JSONValue.null = some (some [""]) ∧
    decide (StringOrArrayUnmarshalJSON (StringOrArrayMarshalJSON none) =
      some (none : StringOrArray)) = false := by
  refine ⟨rfl, rfl, by decide⟩

/-- C10 amended: for every non-nil StringOrArray, marshalling and
unmarshalling the result restores the original value, a one-element slice
being serialized as the bare JSON string and any other non-nil slice as a
JSON array of strings; the nil slice instead serializes as JSON null, which
deserializes to the one-element slice containing the empty string. -/
theorem claim_C10_round_trip_nonnil (l : List String) :
    StringOrArrayUnmarshalJSON (StringOrArrayMarshalJSON (some l)) = some (some l) ∧
    (∀ x, l = [x] → StringOrArrayMarshalJSON (some l) = JSONValue.str x) ∧
    (l.length ≠ 1 →
      StringOrArrayMarshalJSON (some l) = JSONValue.arr (l.map JSONValue.str)) ∧
    StringOrArrayMarshalJSON none = JSONValue.null ∧
    StringOrArrayUnmarshalJSON JSONValue.null = some (some [""]) := by
  refine ⟨?_, ?_, ?_, rfl, rfl⟩
  · by_cases h : l.length = 1
    · obtain ⟨x, rfl⟩ : ∃ x, l = [x] := List.length_eq_one.mp h
      simp [StringOrArrayMarshalJSON, StringOrArrayUnmarshalJSON]
    · simp [StringOrArrayMarshalJSON, h, StringOrArrayUnmarshalJSON,
        decodeStringSlice_map_str]
  · rintro x rfl
    simp [StringOrArrayMarshalJSON]
  · intro h
    simp [StringOrArrayMarshalJSON, h]

end Goarpa
